import Mathlib

/-!
Shallow embedding of `examples/editor.rs` from the `bevy_editor_pls` example
repository.  The file models the example application's own logic: the `save`
keyboard system, the `SaveCommand` and `OpenCommand` command implementations,
the `setup` startup system and the `main` app-builder chain.  Host-engine
facilities (file dialogs, the filesystem, the reflection serializer) are
modelled as explicit data: a dialog result is an `Option FsPath` input, the
filesystem is an association list, and the serializer is a concrete encoding
of the abstract entity list.
-/

/-- Paths are modelled as their file-name strings; directories play no role in
any claim. -/
abbrev FsPath := String

/-- Index of the last '.' in a character list, if any. -/
def lastDot (cs : List Char) : Option Nat :=
  ((List.range cs.length).filter fun i => cs.get? i = some '.').getLast?

/-- Model of Rust `FsPath::file_stem` on a file name: everything before the last
'.', except that a name with no '.' or whose only role for the leading '.' is
to mark a hidden file has no extension and is its own stem. -/
def fileStem (s : String) : String :=
  match lastDot s.toList with
  | none => s
  | some 0 => s
  | some i => String.mk (s.toList.take i)

/-- Model of Rust `PathBuf::set_extension`: drop the current extension and
append `"." ++ ext`. -/
def setExtension (s ext : String) : String :=
  fileStem s ++ ("." ++ ext)

/-- The keyboard state the `save` system reads from `Input<KeyCode>`:
whether LControl and LShift are pressed and whether S and O were just
pressed this frame. -/
structure KeyInput where
  lcontrolPressed : Bool
  lshiftPressed : Bool
  sJustPressed : Bool
  oJustPressed : Bool
  deriving DecidableEq, Repr

/-- The two command values the example defines (`struct SaveCommand;`,
`struct OpenCommand;`). -/
inductive EditorCommand
  | SaveCommand
  | OpenCommand
  deriving DecidableEq, Repr

/-- Result of one run of the `save` system: the value of the `OpenScene`
resource afterwards and the commands queued via `commands.add`. -/
structure SaveSystemOut where
  openScene : Option FsPath
  queued : List EditorCommand
  deriving DecidableEq, Repr

/-- The `save` system.  `saveDialogResult` is the path the user would choose
in the native save-file dialog (`none` = cancelled); the dialog is consulted
only on the Ctrl+Shift+S branch with no open scene, exactly as in the code. -/
def save (input : KeyInput) (saveDialogResult : Option FsPath)
    (openScene : Option FsPath) : SaveSystemOut :=
  if input.lcontrolPressed then
    if input.sJustPressed then
      let openScene' :=
        if input.lshiftPressed then
          if openScene.isNone then
            match saveDialogResult with
            | some p => some (setExtension p "scn.ron")
            | none => openScene
          else openScene
        else openScene
      { openScene := openScene', queued := [EditorCommand.SaveCommand] }
    else if input.oJustPressed then
      { openScene := openScene, queued := [EditorCommand.OpenCommand] }
    else
      { openScene := openScene, queued := [] }
  else
    { openScene := openScene, queued := [] }

/-- Entities are abstract tokens; their component data is irrelevant to the
claims. -/
abbrev EntityId := Nat

/-- Model of the engine's `TypeRegistry`: the list of registered type names. -/
structure TypeRegistry where
  registeredTypes : List String
  deriving DecidableEq, Repr

/-- The slice of the bevy `World` the example touches: its entities, the
`TypeRegistry` resource, and the two resources the example itself defines. -/
structure World where
  entities : List EntityId
  typeRegistry : TypeRegistry
  openScene : Option FsPath
  changeSinceLastSave : Bool
  deriving DecidableEq, Repr

/-- Model of the engine's `DynamicScene`: the snapshot of entities. -/
abbrev DynamicScene := List EntityId

/-- Model of `DynamicScene::from_world`: snapshot the whole world's entity
state, guided by the type registry. -/
def DynamicScene.from_world (w : World) (_reg : TypeRegistry) : DynamicScene :=
  w.entities

/-- Model of `DynamicScene::serialize_ron`: a concrete text encoding of the
snapshot, produced with the type registry in hand. -/
def DynamicScene.serialize_ron (scene : DynamicScene) (_reg : TypeRegistry) : String :=
  String.intercalate "," (scene.map toString)

/-- Split a character list at the commas of the text encoding. -/
def splitOnComma : List Char → List (List Char)
  | [] => [[]]
  | c :: cs =>
    match splitOnComma cs with
    | [] => if c = ',' then [[], []] else [[c]]
    | r :: rs => if c = ',' then [] :: r :: rs else (c :: r) :: rs

def digitVal (c : Char) : Option Nat :=
  if c.isDigit then some (c.toNat - 48) else none

def parseNatAux : List Char → Nat → Option Nat
  | [], acc => some acc
  | c :: cs, acc =>
    match digitVal c with
    | some d => parseNatAux cs (acc * 10 + d)
    | none => none

/-- Parse a nonempty digit string into a number. -/
def parseNatChars : List Char → Option Nat
  | [] => none
  | cs => parseNatAux cs 0

/-- Model of the engine's `SceneDeserializer` driven by a RON deserializer:
decode the text encoding back into a scene, `none` meaning a parse failure. -/
def SceneDeserializer.deserialize (_reg : TypeRegistry) (content : String) :
    Option DynamicScene :=
  let parts := splitOnComma content.toList
  if parts.all fun cs => (parseNatChars cs).isSome then
    some (parts.filterMap parseNatChars)
  else
    none

/-- Model of `DynamicScene::write_to_world`: the scene's entities are spawned
into the world. -/
def DynamicScene.write_to_world (scene : DynamicScene) (w : World) : World :=
  { w with entities := w.entities ++ scene }

/-- The filesystem, as an association list from paths to file contents. -/
abbrev Fs := List (FsPath × String)

/-- Model of `std::fs::write`. -/
def fsWrite (fs : Fs) (p : FsPath) (c : String) : Fs :=
  (p, c) :: fs

/-- Model of `std::fs::read`; `none` means the file does not exist. -/
def fsRead (fs : Fs) (p : FsPath) : Option String :=
  (fs.find? fun e => e.1 == p).map Prod.snd

/-- `SaveCommand::write`.  The serialization happens first; then, if
`OpenScene` is `none`, the save dialog is shown and a cancelled dialog
returns early; otherwise the text is written to the open-scene path and
`ChangeSinceLastSave` is cleared. -/
def SaveCommand.write (w : World) (fs : Fs) (saveDialogResult : Option FsPath) :
    World × Fs :=
  let reg := w.typeRegistry
  let scene := DynamicScene.from_world w reg
  let serialized := DynamicScene.serialize_ron scene reg
  match w.openScene with
  | some p =>
    ({ w with changeSinceLastSave := false }, fsWrite fs p serialized)
  | none =>
    match saveDialogResult with
    | some p0 =>
      let p := setExtension p0 "scn.ron"
      ({ w with openScene := some p, changeSinceLastSave := false },
        fsWrite fs p serialized)
    | none => (w, fs)

/-- `OpenCommand::write`.  A cancelled dialog returns early with the world
unchanged.  Otherwise the file is read and deserialized (`none` here models
an `unwrap` panic), every existing entity is despawned, the scene is written
to the world and `OpenScene` is set to the chosen path. -/
def OpenCommand.write (w : World) (fs : Fs) (openDialogResult : Option FsPath) :
    Option (World × Fs) :=
  match openDialogResult with
  | none => some (w, fs)
  | some path => do
    let file ← fsRead fs path
    let scene ← SceneDeserializer.deserialize w.typeRegistry file
    let despawned := { w with entities := [] }
    let w2 := DynamicScene.write_to_world scene despawned
    some ({ w2 with openScene := some path }, fs)

/-- 3-vectors with exact rational coordinates (the example only constructs
constants; no floating-point arithmetic is performed on them). -/
structure Vec3 where
  x : Rat
  y : Rat
  z : Rat
  deriving DecidableEq, Repr

def Vec3.ZERO : Vec3 := ⟨0, 0, 0⟩

def Vec3.Y : Vec3 := ⟨0, 1, 0⟩

/-- A transform: its translation, and the target/up pair recorded by
`looking_at` (`none` when the default orientation is kept). -/
structure Transform where
  translation : Vec3
  lookTarget : Option (Vec3 × Vec3)
  deriving DecidableEq, Repr

def Transform.from_xyz (x y z : Rat) : Transform :=
  { translation := ⟨x, y, z⟩, lookTarget := none }

def Transform.looking_at (t : Transform) (target up : Vec3) : Transform :=
  { t with lookTarget := some (target, up) }

/-- The bundles the `setup` system can spawn. -/
inductive Bundle
  | LightBundle (transform : Transform)
  | PerspectiveCameraBundle (transform : Transform)
  deriving DecidableEq, Repr

def Bundle.isLight : Bundle → Bool
  | .LightBundle _ => true
  | .PerspectiveCameraBundle _ => false

def Bundle.isCamera : Bundle → Bool
  | .LightBundle _ => false
  | .PerspectiveCameraBundle _ => true

/-- The `setup` startup system: the list of bundles it spawns, in order. -/
def setup : List Bundle :=
  [ Bundle.LightBundle (Transform.from_xyz 4 8 4),
    Bundle.PerspectiveCameraBundle
      ((Transform.from_xyz (-2) (5 / 2) 5).looking_at Vec3.ZERO Vec3.Y) ]

/-- The plugins the app registers. -/
inductive Plugin
  | DefaultPlugins
  | FrameTimeDiagnosticsPlugin
  | EditorPlugin
  | EditorExtensionSpawn
  deriving DecidableEq, Repr

/-- The resources inserted with explicit values in `main`. -/
inductive ResourceInsert
  | WgpuOptions
  | Msaa
  | EditorSettings
  deriving DecidableEq, Repr

/-- The systems `main` registers. -/
inductive SystemId
  | setupDefaultKeybindings
  | setupSystem
  | titleAdjust
  | saveSystem
  deriving DecidableEq, Repr

/-- One call in the `App::build()` chain. -/
inductive BuildStep
  | insertResource (r : ResourceInsert)
  | registerType (name : String)
  | addPlugins (g : Plugin)
  | addPlugin (p : Plugin)
  | initOpenScene
  | initChangeSinceLastSave
  | addStartupSystem (s : SystemId)
  | addSystem (s : SystemId)
  deriving DecidableEq, Repr

/-- The app state accumulated by the builder.  The two example resources are
`none` while uninitialized and hold their value once initialized. -/
structure AppModel where
  insertedResources : List ResourceInsert
  registeredTypes : List String
  plugins : List Plugin
  openSceneResource : Option (Option FsPath)
  changeSinceLastSaveResource : Option Bool
  startupSystems : List SystemId
  systems : List SystemId
  deriving DecidableEq, Repr

def AppModel.empty : AppModel :=
  { insertedResources := [], registeredTypes := [], plugins := []
    openSceneResource := none, changeSinceLastSaveResource := none
    startupSystems := [], systems := [] }

/-- `#[derive(Default)]` on `struct OpenScene(Option<PathBuf>)`. -/
def OpenScene.defaultValue : Option FsPath := none

/-- `#[derive(Default)]` on `struct ChangeSinceLastSave(bool)`. -/
def ChangeSinceLastSave.defaultValue : Bool := false

/-- `init_resource` inserts the default value only when the resource is
absent. -/
def applyStep (app : AppModel) : BuildStep → AppModel
  | .insertResource r => { app with insertedResources := app.insertedResources ++ [r] }
  | .registerType n => { app with registeredTypes := app.registeredTypes ++ [n] }
  | .addPlugins g => { app with plugins := app.plugins ++ [g] }
  | .addPlugin p => { app with plugins := app.plugins ++ [p] }
  | .initOpenScene =>
    match app.openSceneResource with
    | none => { app with openSceneResource := some OpenScene.defaultValue }
    | some v => { app with openSceneResource := some v }
  | .initChangeSinceLastSave =>
    match app.changeSinceLastSaveResource with
    | none => { app with changeSinceLastSaveResource := some ChangeSinceLastSave.defaultValue }
    | some v => { app with changeSinceLastSaveResource := some v }
  | .addStartupSystem s => { app with startupSystems := app.startupSystems ++ [s] }
  | .addSystem s => { app with systems := app.systems ++ [s] }

def buildApp (steps : List BuildStep) : AppModel :=
  steps.foldl applyStep AppModel.empty

/-- The builder chain of `main`, call by call, up to `.run()`. -/
def mainSteps : List BuildStep :=
  [ BuildStep.insertResource .WgpuOptions,
    BuildStep.registerType "Option<IndexFormat>",
    BuildStep.insertResource .Msaa,
    BuildStep.insertResource .EditorSettings,
    BuildStep.addPlugins .DefaultPlugins,
    BuildStep.addPlugin .FrameTimeDiagnosticsPlugin,
    BuildStep.addPlugin .EditorPlugin,
    BuildStep.addPlugin .EditorExtensionSpawn,
    BuildStep.initOpenScene,
    BuildStep.initChangeSinceLastSave,
    BuildStep.addStartupSystem .setupDefaultKeybindings,
    BuildStep.addStartupSystem .setupSystem,
    BuildStep.addSystem .titleAdjust,
    BuildStep.addSystem .saveSystem ]

/-- A path that ends in the `scn.ron` extension. -/
def endsWithScnRon (p : FsPath) : Prop :=
  ∃ stem : String, p = stem ++ ".scn.ron"

theorem setExtension_endsWithScnRon (p : String) :
    endsWithScnRon (setExtension p "scn.ron") :=
  ⟨fileStem p, rfl⟩

theorem save_openScene_cases (input : KeyInput) (dialog os : Option FsPath) :
    (save input dialog os).openScene = os ∨
      ∃ p0, dialog = some p0 ∧
        (save input dialog os).openScene = some (setExtension p0 "scn.ron") := by
  cases hc : input.lcontrolPressed <;> cases hs : input.sJustPressed <;>
    cases hsh : input.lshiftPressed <;> cases ho : input.oJustPressed <;>
      cases os <;> cases dialog <;> simp [save, hc, hs, hsh, ho]

theorem saveCommandWrite_openScene_cases (w : World) (fs : Fs)
    (dialog : Option FsPath) :
    (SaveCommand.write w fs dialog).1.openScene = w.openScene ∨
      ∃ p0, dialog = some p0 ∧
        (SaveCommand.write w fs dialog).1.openScene =
          some (setExtension p0 "scn.ron") := by
  cases hos : w.openScene <;> cases dialog <;> simp [SaveCommand.write, hos]

theorem openCommand_write_chosen (w : World) (fs : Fs) (path : FsPath)
    (content : String) (scene : DynamicScene)
    (hread : fsRead fs path = some content)
    (hparse : SceneDeserializer.deserialize w.typeRegistry content = some scene) :
    OpenCommand.write w fs (some path) =
      some ({ w with entities := scene, openScene := some path }, fs) := by
  obtain ⟨es, reg, os, csls⟩ := w
  simp only at hparse
  simp [OpenCommand.write, hread, hparse, DynamicScene.write_to_world]

/-- Claim C1 fails as literally stated: in a frame with LControl pressed, S
and LShift pressed, `OpenScene` none and the dialog returning path "a",
exactly one `SaveCommand` is queued, but `OpenScene` is set to "a.scn.ron"
(the chosen path with its extension set), not to the chosen path "a". -/
theorem C1_counterexample :
    (save ⟨true, true, true, false⟩ (some "a") none).queued =
      [EditorCommand.SaveCommand] ∧
    (save ⟨true, true, true, false⟩ (some "a") none).openScene ≠ some "a" := by
  decide

/-- Claim C1 (amended): in every frame with LControl pressed and S just
pressed, the `save` system queues exactly one `SaveCommand`; moreover when
LShift is also pressed and `OpenScene` is none, if the save dialog returns a
path then `OpenScene` is set to that path with its extension set to
"scn.ron" before the command is queued, and otherwise `OpenScene` is left
unchanged. -/
theorem C1_save_system_ctrl_s (input : KeyInput) (dialog os : Option FsPath)
    (hctrl : input.lcontrolPressed = true) (hs : input.sJustPressed = true) :
    (save input dialog os).queued = [EditorCommand.SaveCommand] ∧
    (save input dialog os).openScene =
      (if input.lshiftPressed = true ∧ os = none then
        match dialog with
        | some p => some (setExtension p "scn.ron")
        | none => os
      else os) := by
  refine ⟨by simp [save, hctrl, hs], ?_⟩
  cases hsh : input.lshiftPressed <;> cases os <;> cases dialog <;>
    simp [save, hctrl, hs, hsh]

theorem C1_witness :
    (save ⟨true, true, true, false⟩ (some "b") none).queued =
      [EditorCommand.SaveCommand] ∧
    (save ⟨true, true, true, false⟩ (some "b") none).openScene =
      some "b.scn.ron" := by
  have h := C1_save_system_ctrl_s ⟨true, true, true, false⟩ (some "b") none rfl rfl
  exact ⟨h.1, h.2.trans (by decide)⟩

/-- Claim C2: when `SaveCommand` executes with `OpenScene` holding some path,
it serializes the snapshot of the whole world (`DynamicScene::from_world`
then `serialize_ron` with the `TypeRegistry`), writes the text to that path,
and clears `ChangeSinceLastSave`. -/
theorem C2_saveCommand_with_open_scene (w : World) (fs : Fs)
    (dialog : Option FsPath) (path : FsPath) (h : w.openScene = some path) :
    SaveCommand.write w fs dialog =
      ({ w with changeSinceLastSave := false },
        fsWrite fs path
          (DynamicScene.serialize_ron (DynamicScene.from_world w w.typeRegistry)
            w.typeRegistry)) := by
  simp [SaveCommand.write, h]

theorem C2_witness :
    SaveCommand.write ⟨[1, 2], ⟨["T"]⟩, some "s.scn.ron", true⟩ [] none =
      (⟨[1, 2], ⟨["T"]⟩, some "s.scn.ron", false⟩, [("s.scn.ron", "1,2")]) := by
  have h := C2_saveCommand_with_open_scene ⟨[1, 2], ⟨["T"]⟩, some "s.scn.ron", true⟩
    [] none "s.scn.ron" rfl
  exact h.trans (by decide)

/-- Claim C3: in every frame with LControl pressed, O just pressed and S not
just pressed, the `save` system queues exactly one `OpenCommand`; and in no
frame are a `SaveCommand` and an `OpenCommand` both queued. -/
theorem C3_save_system_ctrl_o (input : KeyInput) (dialog os : Option FsPath) :
    ((input.lcontrolPressed = true ∧ input.oJustPressed = true ∧
        input.sJustPressed = false) →
      (save input dialog os).queued = [EditorCommand.OpenCommand]) ∧
    ¬(EditorCommand.SaveCommand ∈ (save input dialog os).queued ∧
      EditorCommand.OpenCommand ∈ (save input dialog os).queued) := by
  constructor
  · rintro ⟨hc, ho, hs⟩
    simp [save, hc, ho, hs]
  · cases hc : input.lcontrolPressed <;> cases hs : input.sJustPressed <;>
      cases ho : input.oJustPressed <;> simp [save, hc, hs, ho]

theorem C3_witness :
    (save ⟨true, false, false, true⟩ none none).queued =
      [EditorCommand.OpenCommand] ∧
    ¬(EditorCommand.SaveCommand ∈ (save ⟨true, false, false, true⟩ none none).queued ∧
      EditorCommand.OpenCommand ∈ (save ⟨true, false, false, true⟩ none none).queued) :=
  ⟨(C3_save_system_ctrl_o ⟨true, false, false, true⟩ none none).1 (by decide),
    (C3_save_system_ctrl_o ⟨true, false, false, true⟩ none none).2⟩

/-- Claim C4: when `OpenCommand` executes and a file is chosen, its contents
are deserialized with the `SceneDeserializer` using the world's
`TypeRegistry`, the scene's entities are written into the world, and
`OpenScene` is set to some of the chosen path. -/
theorem C4_openCommand_chosen (w : World) (fs : Fs) (path : FsPath)
    (content : String) (scene : DynamicScene)
    (hread : fsRead fs path = some content)
    (hparse : SceneDeserializer.deserialize w.typeRegistry content = some scene) :
    OpenCommand.write w fs (some path) =
      some ({ w with entities := scene, openScene := some path }, fs) :=
  openCommand_write_chosen w fs path content scene hread hparse

theorem C4_witness :
    OpenCommand.write ⟨[7], ⟨[]⟩, none, true⟩ [("f.scn.ron", "3,4")]
        (some "f.scn.ron") =
      some (⟨[3, 4], ⟨[]⟩, some "f.scn.ron", true⟩, [("f.scn.ron", "3,4")]) := by
  have h := C4_openCommand_chosen ⟨[7], ⟨[]⟩, none, true⟩ [("f.scn.ron", "3,4")]
    "f.scn.ron" "3,4" [3, 4] (by decide) (by decide)
  exact h.trans (by decide)

/-- Claim C5: the `setup` startup system spawns exactly one light (a
`LightBundle` at translation (4, 8, 4)) and exactly one camera (a
`PerspectiveCameraBundle` at translation (-2, 2.5, 5) looking at the
origin), and nothing else. -/
theorem C5_setup_spawns :
    setup = [Bundle.LightBundle (Transform.from_xyz 4 8 4),
      Bundle.PerspectiveCameraBundle
        ((Transform.from_xyz (-2) (5 / 2) 5).looking_at Vec3.ZERO Vec3.Y)] ∧
    setup.countP Bundle.isLight = 1 ∧ setup.countP Bundle.isCamera = 1 ∧
    setup.length = 2 :=
  ⟨rfl, rfl, rfl, rfl⟩

/-- Claim C6: the builder chain of `main` registers `DefaultPlugins`,
`FrameTimeDiagnosticsPlugin`, `EditorPlugin` and `EditorExtensionSpawn`, and
initializes the `OpenScene` and `ChangeSinceLastSave` resources to their
derived defaults, none and false. -/
theorem C6_main_app_construction :
    (buildApp mainSteps).plugins =
      [Plugin.DefaultPlugins, Plugin.FrameTimeDiagnosticsPlugin,
        Plugin.EditorPlugin, Plugin.EditorExtensionSpawn] ∧
    (buildApp mainSteps).openSceneResource = some OpenScene.defaultValue ∧
    (buildApp mainSteps).changeSinceLastSaveResource =
      some ChangeSinceLastSave.defaultValue ∧
    OpenScene.defaultValue = none ∧ ChangeSinceLastSave.defaultValue = false :=
  ⟨rfl, rfl, rfl, rfl, rfl⟩

/-- Claim C7: if `SaveCommand` executes while `OpenScene` is none and the save
dialog is cancelled, it returns early: no file is written and the world,
including `OpenScene` and `ChangeSinceLastSave`, is unchanged. -/
theorem C7_saveCommand_cancelled (w : World) (fs : Fs)
    (h : w.openScene = none) :
    SaveCommand.write w fs none = (w, fs) := by
  simp [SaveCommand.write, h]

theorem C7_witness :
    SaveCommand.write ⟨[1], ⟨[]⟩, none, true⟩ [] none =
      (⟨[1], ⟨[]⟩, none, true⟩, []) :=
  C7_saveCommand_cancelled ⟨[1], ⟨[]⟩, none, true⟩ [] rfl

/-- Claim C8: when `OpenCommand` executes and a file is chosen, every
existing entity is despawned before the scene is written, so the resulting
world's entities are exactly the loaded scene's; when the dialog is
cancelled, the world and filesystem are unchanged. -/
theorem C8_openCommand_replaces_entities (w : World) (fs : Fs) (path : FsPath)
    (content : String) (scene : DynamicScene)
    (hread : fsRead fs path = some content)
    (hparse : SceneDeserializer.deserialize w.typeRegistry content = some scene) :
    OpenCommand.write w fs (some path) =
      some ({ w with entities := scene, openScene := some path }, fs) ∧
    OpenCommand.write w fs none = some (w, fs) :=
  ⟨openCommand_write_chosen w fs path content scene hread hparse, rfl⟩

theorem C8_witness :
    (OpenCommand.write ⟨[7, 8], ⟨["U"]⟩, none, false⟩ [("g.scn.ron", "5")]
        (some "g.scn.ron") =
      some (⟨[5], ⟨["U"]⟩, some "g.scn.ron", false⟩, [("g.scn.ron", "5")])) ∧
    OpenCommand.write ⟨[7, 8], ⟨["U"]⟩, none, false⟩ [("g.scn.ron", "5")] none =
      some (⟨[7, 8], ⟨["U"]⟩, none, false⟩, [("g.scn.ron", "5")]) := by
  have h := C8_openCommand_replaces_entities ⟨[7, 8], ⟨["U"]⟩, none, false⟩
    [("g.scn.ron", "5")] "g.scn.ron" "5" [5] (by decide) (by decide)
  exact ⟨h.1.trans (by decide), h.2⟩

/-- Claim C9: whenever the save flow (the `save` system or
`SaveCommand::write`) changes the `OpenScene` resource and stores some path,
that path ends in the "scn.ron" extension. -/
theorem C9_save_flow_extension (input : KeyInput) (dialog os : Option FsPath)
    (w : World) (fs : Fs) (dialog2 : Option FsPath) (p q : FsPath) :
    ((save input dialog os).openScene = some p →
      (save input dialog os).openScene ≠ os → endsWithScnRon p) ∧
    ((SaveCommand.write w fs dialog2).1.openScene = some q →
      (SaveCommand.write w fs dialog2).1.openScene ≠ w.openScene →
        endsWithScnRon q) := by
  constructor
  · intro hp hne
    rcases save_openScene_cases input dialog os with h | ⟨p0, _, h⟩
    · exact absurd h hne
    · rw [hp] at h
      injection h with h2
      exact h2 ▸ setExtension_endsWithScnRon p0
  · intro hq hne
    rcases saveCommandWrite_openScene_cases w fs dialog2 with h | ⟨p0, _, h⟩
    · exact absurd h hne
    · rw [hq] at h
      injection h with h2
      exact h2 ▸ setExtension_endsWithScnRon p0

theorem C9_witness : endsWithScnRon "b.scn.ron" ∧ endsWithScnRon "c.scn.ron" := by
  have h := C9_save_flow_extension ⟨true, true, true, false⟩ (some "b") none
    ⟨[], ⟨[]⟩, none, true⟩ [] (some "c") "b.scn.ron" "c.scn.ron"
  exact ⟨h.1 (by decide) (by decide), h.2 (by decide) (by decide)⟩
